import Mathlib

/-!
Verification of the guest-submitted page-table update engine of
xen-2.4.16 (`common/memory.c`): a shallow embedding of the frame table,
the reference-accounting primitives, the L1/L2 acquire/release walks,
the entry modifiers, the extended-command handler and the batch
dispatcher, together with theorems settling the specification claims.

The C file `common/memory.c` is embedded below.  The header files
(`xeno/mm.h`, `asm/page.h`, ...) are not part of the provided sources;
the constants and the frame-record layout they define are modelled from
the specification (each such definition carries a comment saying so).
Machine words (`unsigned long`) are 32 bits; counts are kept as `Nat`
reduced mod 2^32 where the code can overflow, and C `int` return values
are reinterpreted through `toInt32`.
-/

/-- Modelled from the spec: page size is 4096 bytes (32-bit two-level paging). -/
def PAGE_SHIFT : Nat := 12

/-- Modelled from the spec: `PAGE_SIZE = 1 << PAGE_SHIFT`. -/
def PAGE_SIZE : Nat := 4096

/-- Modelled from the spec: an L1 table has 1024 architecture-defined entries. -/
def ENTRIES_PER_L1_PAGETABLE : Nat := 1024

/-- Modelled from the spec: an L2 directory has 1024 entries. -/
def ENTRIES_PER_L2_PAGETABLE : Nat := 1024

/-- Modelled from the spec: the low portion of an L2 directory reserved for
guest mappings (the hypervisor owns the high `0xFC000000`-up portion). -/
def DOMAIN_ENTRIES_PER_L2_PAGETABLE : Nat := 1008

/-- Modelled from the spec: the fixed hypervisor high-half entries. -/
def HYPERVISOR_ENTRIES_PER_L2_PAGETABLE : Nat := 16

/-- Modelled from the spec: type tag *none* (no special use). -/
def PGT_none : Nat := 0

/-- Modelled from the spec: type tag *L1-table*, a value of the
`PG_type_mask` field of `flags` (bits 24-25 here). -/
def PGT_l1_page_table : Nat := 1 <<< 24

/-- Modelled from the spec: type tag *L2-table*. -/
def PGT_l2_page_table : Nat := 2 <<< 24

/-- Modelled from the spec: type tag *writeable*. -/
def PGT_writeable_page : Nat := 3 <<< 24

/-- Modelled from the spec: the pin marker is a reserved high bit in both
reference counts, so a pin adds exactly one bit to each. -/
def REFCNT_PIN_BIT : Nat := 1 <<< 30

/-- 32-bit complement of `REFCNT_PIN_BIT` (the C `~REFCNT_PIN_BIT`). -/
def NOT_PIN_BIT : Nat := 4294967295 ^^^ REFCNT_PIN_BIT

/-- Modelled from the spec: entry bit 0, *present* (tracked). -/
def PAGE_PRESENT : Nat := 0x001

/-- Modelled from the spec: entry bit 1, *RW* (tracked for L1). -/
def PAGE_RW : Nat := 0x002

/-- Modelled from the spec: PAT bit, forbidden in L1 entries. -/
def PAGE_PAT : Nat := 0x040

/-- Modelled from the spec: PSE bit, forbidden in L2 entries. -/
def PAGE_PSE : Nat := 0x080

/-- Modelled from the spec: global bit, forbidden in both entry kinds. -/
def PAGE_GLOBAL : Nat := 0x100

/-- Modelled from the spec: flags the hypervisor puts on its private
per-domain mapping entry (exact value immaterial to the claims). -/
def PAGE_HYPERVISOR : Nat := 0x103

/-- Request kind *normal* (`ptr` low two bits `00`). -/
def PGREQ_NORMAL : Nat := 0

/-- Request kind *unchecked* (`ptr` low two bits `01`). -/
def PGREQ_UNCHECKED_UPDATE : Nat := 1

/-- Request kind *extended* (`ptr` low two bits `10`). -/
def PGREQ_EXTENDED_COMMAND : Nat := 2

/-- 32-bit mask clearing the low two bits: the C
`~(sizeof(l1_pgentry_t)-1)` = `~3` on a 32-bit word. -/
def NOT_l1e_mask : Nat := 4294967295 ^^^ 3

/-- Modelled from the spec: extended sub-command selector mask (`val & 0xFF`). -/
def PGEXT_CMD_MASK : Nat := 0xFF

/-- Modelled from the spec: sub-command *pin-L1*. -/
def PGEXT_PIN_L1_TABLE : Nat := 1

/-- Modelled from the spec: sub-command *pin-L2*. -/
def PGEXT_PIN_L2_TABLE : Nat := 2

/-- Modelled from the spec: sub-command *unpin*. -/
def PGEXT_UNPIN_TABLE : Nat := 5

/-- Modelled from the spec: sub-command *new-base-pointer*. -/
def PGEXT_NEW_BASEPTR : Nat := 6

/-- Modelled from the spec: sub-command *tlb-flush*. -/
def PGEXT_TLB_FLUSH : Nat := 7

/-- Modelled from the spec: sub-command *invlpg*. -/
def PGEXT_INVLPG : Nat := 8

/-- The absolute L2 index of the per-domain private mapping entry,
`PERDOMAIN_VIRT_START >> L2_PAGETABLE_SHIFT`; it lies in the hypervisor
portion (modelled from the spec, exact value immaterial to the claims). -/
def PERDOMAIN_L2_IDX : Nat := 1020

/-- Truncate to a 32-bit unsigned word. -/
def u32 (n : Nat) : Nat := n % 4294967296

/-- Reinterpret a 32-bit unsigned word as a C `int`. -/
def toInt32 (n : Nat) : Int :=
  if n < 2147483648 then (n : Int) else (n : Int) - 4294967296

/-- Modelled from the spec: the per-frame record `struct pfn_info`.
The C packs `owner` (the `PG_domain_mask` field) and `typ` (the
`PG_type_mask` field) into the single word `flags = owner ||| typ`;
they are kept as separate fields here.  `type_count` and `tot_count`
carry the pin bit `REFCNT_PIN_BIT` like in the C.  The free-list
linkage is outside the scope of the claims and is omitted. -/
structure Pfn_info where
  owner : Nat
  typ : Nat
  type_count : Nat
  tot_count : Nat
deriving DecidableEq

/-- The global state touched by `memory.c`: the frame table (`frames`,
a total map defaulting outside `[0, max_page)`), guest-visible physical
memory (`mem`, the 32-bit word stored at each 4-aligned byte address),
the current domain's identifier and saved root pointer
(`current->domain`, `pagetable_val(current->mm.pagetable)`), the
physical address of the current domain's per-domain L1 table, the idle
directory's hypervisor half (read by `get_l2_table`'s memcpy), the
local CPU's `tlb_flush[smp_processor_id()]` flag, and the hardware
root directory register `cr3` (written by the batch-end reload). -/
structure Xen where
  max_page : Nat
  frames : Nat → Pfn_info
  mem : Nat → Nat
  curdom : Nat
  pagetable : Nat
  perdomain_pt : Nat
  idle_l2 : Nat → Nat
  tlbflush : Bool
  cr3 : Nat

/-- Store a frame record at index `n` of the frame table. -/
def setFrame (s : Xen) (n : Nat) (p : Pfn_info) : Xen :=
  { s with frames := fun m => if m = n then p else s.frames m }

/-- Store a 32-bit word at (4-aligned byte) address `a`. -/
def setMem (s : Xen) (a v : Nat) : Xen :=
  { s with mem := fun b => if b = a then v else s.mem b }

/-- The C macro `get_page_tot(p)`: `(p)->tot_count++`. -/
def get_page_tot (p : Pfn_info) : Pfn_info :=
  { p with tot_count := u32 (p.tot_count + 1) }

/-- The C macro `get_page_type(p)`: `(p)->type_count++`; the expression
value is the old count (post-increment). -/
def get_page_type (p : Pfn_info) : Nat × Pfn_info :=
  (p.type_count, { p with type_count := u32 (p.type_count + 1) })

/-- The C macro `put_page_tot(p)`: `--(p)->tot_count` (32-bit wrap on 0). -/
def put_page_tot (p : Pfn_info) : Pfn_info :=
  { p with tot_count := u32 (p.tot_count + 4294967295) }

/-- The C macro `put_page_type(p)`: `--(p)->type_count`; the expression
value is the new count (pre-decrement). -/
def put_page_type (p : Pfn_info) : Nat × Pfn_info :=
  (u32 (p.type_count + 4294967295),
   { p with type_count := u32 (p.type_count + 4294967295) })

/-- `inc_page_refcnt` (memory.c:242-273).  Returns the original type
count, or -1 on error.  The C's nested `if ((flags & PG_type_mask) !=
type) { if (page_type_count(page) != 0) return -1; page->flags |=
type; }` is rendered as one failure test followed by a conditional
commit; note the commit ORs the type bits into the type field. -/
def inc_page_refcnt (s : Xen) (page_nr ty : Nat) : Int × Xen :=
  if s.max_page ≤ page_nr then (-1, s) else
  let page := s.frames page_nr
  if page.owner ≠ s.curdom then (-1, s) else
  if page.typ ≠ ty ∧ page.type_count ≠ 0 then (-1, s) else
  let page := if page.typ ≠ ty then { page with typ := page.typ ||| ty } else page
  let page := get_page_tot page
  let (old, page) := get_page_type page
  (toInt32 old, setFrame s page_nr page)

/-- `dec_page_refcnt` (memory.c:276-299).  Returns the new type count,
or -1 on error.  The C compares `flags & (PG_type_mask |
PG_domain_mask)` with `type | current->domain`; with `flags = owner |||
typ` and disjoint fields that is the pair comparison below.  The
`ASSERT(page_type_count(page) != 0)` is a no-op in this build. -/
def dec_page_refcnt (s : Xen) (page_nr ty : Nat) : Int × Xen :=
  if s.max_page ≤ page_nr then (-1, s) else
  let page := s.frames page_nr
  if page.typ ≠ ty ∨ page.owner ≠ s.curdom then (-1, s) else
  let (ret, page) := put_page_type page
  let page := if ret = 0 then { page with typ := PGT_none } else page
  let page := put_page_tot page
  (toInt32 ret, setFrame s page_nr page)

/-- `get_page` (memory.c:370-408).  `writeable` is the C `int`
argument (`l1_pgentry_val(e) & _PAGE_RW`), truth-tested against 0. -/
def get_page (s : Xen) (page_nr writeable : Nat) : Int × Xen :=
  if s.max_page ≤ page_nr then (-1, s) else
  let page := s.frames page_nr
  if page.owner ≠ s.curdom then (-1, s) else
  if writeable ≠ 0 then
    if page.typ ≠ PGT_writeable_page ∧ page.type_count ≠ 0 then (-1, s) else
    let page := if page.typ ≠ PGT_writeable_page then
                  { page with typ := page.typ ||| PGT_writeable_page } else page
    let (_, page) := get_page_type page
    let page := get_page_tot page
    (0, setFrame s page_nr page)
  else
    let page := get_page_tot page
    (0, setFrame s page_nr page)

/-- `put_page` (memory.c:454-469).  The ASSERTs are no-ops in this
build; `tlb_flush[smp_processor_id()]` is the `tlbflush` flag. -/
def put_page (s : Xen) (page_nr writeable : Nat) : Xen :=
  let page := s.frames page_nr
  if writeable ≠ 0 then
    let (c, page) := put_page_type page
    if c = 0 then
      let page := { page with typ := PGT_none }
      setFrame { s with tlbflush := true } page_nr (put_page_tot page)
    else
      setFrame s page_nr (put_page_tot page)
  else
    setFrame s page_nr (put_page_tot page)

/-- Byte address of entry `i` of the table in frame `page_nr`
(`sizeof(l1_pgentry_t) = sizeof(l2_pgentry_t) = 4`). -/
def l1e_addr (page_nr i : Nat) : Nat := (page_nr <<< PAGE_SHIFT) + 4 * i

/-- The entry loop of `get_l1_table` (memory.c:350-365) over the listed
indices; the mapping-window remaps are identity in this model. -/
def get_l1_loop (page_nr : Nat) : List Nat → Xen → Int × Xen
  | [], s => (0, s)
  | i :: rest, s =>
    let l1_entry := s.mem (l1e_addr page_nr i)
    if l1_entry &&& PAGE_PRESENT = 0 then get_l1_loop page_nr rest s
    else if l1_entry &&& (PAGE_GLOBAL ||| PAGE_PAT) ≠ 0 then (-1, s)
    else
      let (ret, s) := get_page s (l1_entry >>> PAGE_SHIFT) (l1_entry &&& PAGE_RW)
      if ret ≠ 0 then (ret, s) else get_l1_loop page_nr rest s

/-- `get_l1_table` (memory.c:339-368). -/
def get_l1_table (s : Xen) (page_nr : Nat) : Int × Xen :=
  let (ret, s) := inc_page_refcnt s page_nr PGT_l1_page_table
  if ret ≠ 0 then (if ret < 0 then ret else 0, s)
  else get_l1_loop page_nr (List.range ENTRIES_PER_L1_PAGETABLE) s

/-- The entry loop of `get_l2_table` (memory.c:312-326) over the guest
portion of the directory. -/
def get_l2_loop (page_nr : Nat) : List Nat → Xen → Int × Xen
  | [], s => (0, s)
  | i :: rest, s =>
    let l2_entry := s.mem (l1e_addr page_nr i)
    if l2_entry &&& PAGE_PRESENT = 0 then get_l2_loop page_nr rest s
    else if l2_entry &&& (PAGE_GLOBAL ||| PAGE_PSE) ≠ 0 then (-1, s)
    else
      let (ret, s) := get_l1_table s (l2_entry >>> PAGE_SHIFT)
      if ret ≠ 0 then (ret, s) else get_l2_loop page_nr rest s

/-- The high-mapping splice of `get_l2_table` (memory.c:328-334): copy
the 16 hypervisor entries of the idle directory into the upper portion
of the new L2 and install the per-domain private mapping entry. -/
def splice_hypervisor (s : Xen) (page_nr : Nat) : List Nat → Xen
  | [] =>
    setMem s (l1e_addr page_nr PERDOMAIN_L2_IDX) (s.perdomain_pt ||| PAGE_HYPERVISOR)
  | j :: rest =>
    splice_hypervisor
      (setMem s (l1e_addr page_nr (DOMAIN_ENTRIES_PER_L2_PAGETABLE + j)) (s.idle_l2 j))
      page_nr rest

/-- `get_l2_table` (memory.c:302-337). -/
def get_l2_table (s : Xen) (page_nr : Nat) : Int × Xen :=
  let (ret, s) := inc_page_refcnt s page_nr PGT_l2_page_table
  if ret ≠ 0 then (if ret < 0 then ret else 0, s)
  else
    let (ret, s) := get_l2_loop page_nr (List.range DOMAIN_ENTRIES_PER_L2_PAGETABLE) s
    if ret ≠ 0 then (ret, s)
    else (ret, splice_hypervisor s page_nr (List.range HYPERVISOR_ENTRIES_PER_L2_PAGETABLE))

/-- The entry loop of `put_l1_table` (memory.c:442-452). -/
def put_l1_loop (page_nr : Nat) : List Nat → Xen → Xen
  | [], s => s
  | i :: rest, s =>
    let l1_entry := s.mem (l1e_addr page_nr i)
    if l1_entry &&& PAGE_PRESENT ≠ 0 then
      put_l1_loop page_nr rest (put_page s (l1_entry >>> PAGE_SHIFT) (l1_entry &&& PAGE_RW))
    else put_l1_loop page_nr rest s

/-- `put_l1_table` (memory.c:434-452). -/
def put_l1_table (s : Xen) (page_nr : Nat) : Xen :=
  let (ret, s) := dec_page_refcnt s page_nr PGT_l1_page_table
  if ret ≠ 0 then s
  else put_l1_loop page_nr (List.range ENTRIES_PER_L1_PAGETABLE) s

/-- The entry loop of `put_l2_table` (memory.c:419-429).  NOTE: the C
loop bound is `HYPERVISOR_ENTRIES_PER_L2_PAGETABLE` (16), starting at
entry 0 -- not the guest portion that `get_l2_table` walked. -/
def put_l2_loop (page_nr : Nat) : List Nat → Xen → Xen
  | [], s => s
  | i :: rest, s =>
    let l2_entry := s.mem (l1e_addr page_nr i)
    if l2_entry &&& PAGE_PRESENT ≠ 0 then
      put_l2_loop page_nr rest (put_l1_table s (l2_entry >>> PAGE_SHIFT))
    else put_l2_loop page_nr rest s

/-- `put_l2_table` (memory.c:410-432). -/
def put_l2_table (s : Xen) (page_nr : Nat) : Int × Xen :=
  let (ret, s) := dec_page_refcnt s page_nr PGT_l2_page_table
  if ret ≠ 0 then (if ret < 0 then ret else 0, s)
  else (0, put_l2_loop page_nr (List.range HYPERVISOR_ENTRIES_PER_L2_PAGETABLE) s)

/-- `mod_l2_entry` (memory.c:472-530).  The offset-in-page of the
mapped pointer is `pa & (PAGE_SIZE-1)`; on every failure the old value
is rewritten into the slot (the C `goto fail`). -/
def mod_l2_entry (s : Xen) (pa : Nat) (new_l2_entry : Nat) : Int × Xen :=
  let old_l2_entry := s.mem pa
  if DOMAIN_ENTRIES_PER_L2_PAGETABLE ≤ (pa &&& (PAGE_SIZE - 1)) >>> 2 then
    (-1, setMem s pa old_l2_entry)
  else
  let s := setMem s pa new_l2_entry
  if new_l2_entry &&& PAGE_PRESENT ≠ 0 then
    if new_l2_entry &&& (PAGE_GLOBAL ||| PAGE_PSE) ≠ 0 then
      (-1, setMem s pa old_l2_entry)
    else if (old_l2_entry ^^^ new_l2_entry) &&& 0xfffff001 ≠ 0 then
      let s := if old_l2_entry &&& PAGE_PRESENT ≠ 0 then
                 put_l1_table s (old_l2_entry >>> PAGE_SHIFT) else s
      let (r, s) := get_l1_table s (new_l2_entry >>> PAGE_SHIFT)
      if r ≠ 0 then (-1, setMem s pa old_l2_entry) else (0, s)
    else (0, s)
  else
    if old_l2_entry &&& PAGE_PRESENT ≠ 0 then
      (0, put_l1_table s (old_l2_entry >>> PAGE_SHIFT))
    else (0, s)

/-- `mod_l1_entry` (memory.c:533-580).  The new value is written only
after a successful acquire; on failure nothing is written. -/
def mod_l1_entry (s : Xen) (pa : Nat) (new_l1_entry : Nat) : Int × Xen :=
  let old_l1_entry := s.mem pa
  if new_l1_entry &&& PAGE_PRESENT ≠ 0 then
    if new_l1_entry &&& (PAGE_GLOBAL ||| PAGE_PAT) ≠ 0 then (-1, s)
    else if (old_l1_entry ^^^ new_l1_entry) &&& 0xfffff003 ≠ 0 then
      let s := if old_l1_entry &&& PAGE_PRESENT ≠ 0 then
                 put_page s (old_l1_entry >>> PAGE_SHIFT) (old_l1_entry &&& PAGE_RW) else s
      let (r, s) := get_page s (new_l1_entry >>> PAGE_SHIFT) (new_l1_entry &&& PAGE_RW)
      if r ≠ 0 then (-1, s) else (0, setMem s pa new_l1_entry)
    else (0, setMem s pa new_l1_entry)
  else
    let s := if old_l1_entry &&& PAGE_PRESENT ≠ 0 then
               put_page s (old_l1_entry >>> PAGE_SHIFT) (old_l1_entry &&& PAGE_RW) else s
    (0, setMem s pa new_l1_entry)

/-- The pfn `do_extended_command` derives from its `ptr` argument
(memory.c:586). -/
def extcmd_pfn (ptr : Nat) : Nat := ptr >>> PAGE_SHIFT

/-- The shared `mark_as_pinned` tail of the PIN_L1/PIN_L2 cases
(memory.c:596-614): on a successful get, drop the acquire's
contribution again and raise the pin bit in both counts; fail if the
pin bit was already set (the drop is not undone on that error). -/
def mark_as_pinned (err : Int) (s : Xen) (pfn : Nat) : Int × Xen :=
  if err ≠ 0 then (err, s)
  else
    let page := s.frames pfn
    let (_, page) := put_page_type page
    let page := put_page_tot page
    if page.type_count &&& REFCNT_PIN_BIT = 0 then
      (0, setFrame s pfn { page with
            type_count := page.type_count ||| REFCNT_PIN_BIT,
            tot_count := page.tot_count ||| REFCNT_PIN_BIT })
    else
      (1, setFrame s pfn page)

/-- `do_extended_command` (memory.c:583-667).  `__flush_tlb_one`
(INVLPG) acts on hardware state outside the model.  NEW_BASEPTR falls
through to TLB_FLUSH like the C. -/
def do_extended_command (s : Xen) (ptr val : Nat) : Int × Xen :=
  let pfn := extcmd_pfn ptr
  let cmd := val &&& PGEXT_CMD_MASK
  if cmd = PGEXT_PIN_L1_TABLE then
    let (err, s) := get_l1_table s pfn
    mark_as_pinned err s pfn
  else if cmd = PGEXT_PIN_L2_TABLE then
    let (err, s) := get_l2_table s pfn
    mark_as_pinned err s pfn
  else if cmd = PGEXT_UNPIN_TABLE then
    let page := s.frames pfn
    if page.owner ≠ s.curdom then (1, s)
    else if page.type_count &&& REFCNT_PIN_BIT ≠ 0 then
      let page := { page with
        type_count := page.type_count &&& NOT_PIN_BIT,
        tot_count := page.tot_count &&& NOT_PIN_BIT }
      let (_, page) := get_page_type page
      let page := get_page_tot page
      let s := setFrame s pfn page
      if page.typ = PGT_l1_page_table then (0, put_l1_table s pfn)
      else (0, (put_l2_table s pfn).2)
    else (1, s)
  else if cmd = PGEXT_NEW_BASEPTR then
    let (err, s) := get_l2_table s pfn
    let s :=
      if err = 0 then
        let s' := (put_l2_table s (s.pagetable >>> PAGE_SHIFT)).2
        { s' with pagetable := pfn <<< PAGE_SHIFT }
      else s
    (err, { s with tlbflush := true })
  else if cmd = PGEXT_TLB_FLUSH then
    (0, { s with tlbflush := true })
  else if cmd = PGEXT_INVLPG then
    (0, s)
  else
    (1, s)

/-- One update request `(ptr, val)`, two little-endian machine words
already copied from the guest. -/
structure PageUpdateRequest where
  ptr : Nat
  val : Nat
deriving DecidableEq

/-- Outcome of the batch dispatcher: either the batch ran to completion
or the submitting domain was killed (`kill_domain_with_errmsg` does not
return; the state at the kill is recorded). -/
inductive UpdResult where
  | ok : Xen → UpdResult
  | killed : Xen → UpdResult

/-- The per-request switch body of `do_process_page_updates`
(memory.c:693-756), after the range guard: `err` starts at 1 and is
replaced by the selected handler's result.  The unchecked case is the
C `(flags | current->domain) == PGT_l1_page_table` with
`flags = owner ||| typ`. -/
def do_update_request (s : Xen) (ptr val : Nat) : Int × Xen :=
  let pfn := ptr >>> PAGE_SHIFT
  if ptr &&& 3 = PGREQ_NORMAL then
    let page := s.frames pfn
    if page.owner = s.curdom then
      if page.typ = PGT_l1_page_table then mod_l1_entry s ptr val
      else if page.typ = PGT_l2_page_table then mod_l2_entry s ptr val
      else (1, s)
    else (1, s)
  else if ptr &&& 3 = PGREQ_UNCHECKED_UPDATE then
    let ptr := ptr &&& NOT_l1e_mask
    let page := s.frames pfn
    if (page.owner ||| page.typ) ||| s.curdom = PGT_l1_page_table then
      (0, setMem s ptr val)
    else (1, s)
  else if ptr &&& 3 = PGREQ_EXTENDED_COMMAND then
    do_extended_command s (ptr &&& NOT_l1e_mask) val
  else (1, s)

/-- The request loop of `do_process_page_updates` (memory.c:677-769):
kill the domain if the request's pfn is out of range or if its handler
reports an error. -/
def dpu_loop (s : Xen) : List PageUpdateRequest → UpdResult
  | [] => .ok s
  | r :: rest =>
    if s.max_page ≤ r.ptr >>> PAGE_SHIFT then .killed s
    else
      let (err, s') := do_update_request s r.ptr r.val
      if err ≠ 0 then .killed s' else dpu_loop s' rest

/-- `do_process_page_updates` (memory.c:670-780): run the request loop
(over requests already copied from the guest), then, if the local
TLB-flush flag is set, clear it and reload the root directory register
from the saved root pointer (`movl %eax, %cr3`). -/
def do_process_page_updates (s : Xen) (reqs : List PageUpdateRequest) : UpdResult :=
  match dpu_loop s reqs with
  | .killed s' => .killed s'
  | .ok s' =>
    if s'.tlbflush then .ok { s' with tlbflush := false, cr3 := s'.pagetable }
    else .ok s'

/-! ### Concrete machine states used by the witnesses and counterexamples -/

/-- An all-zero frame record (owner 0, type none, zero counts). -/
def zeroFrame : Pfn_info := ⟨0, 0, 0, 0⟩

/-- A small concrete machine: four frames owned by domain 0 (the current
domain), all memory zero, flush flag clear. -/
def baseState : Xen :=
  { max_page := 4, frames := fun _ => zeroFrame, mem := fun _ => 0,
    curdom := 0, pagetable := 0, perdomain_pt := 0, idle_l2 := fun _ => 0,
    tlbflush := false, cr3 := 0 }

/-- Frame 0 is an L2 directory with zero counts (type count 0). -/
def c1State : Xen := setFrame baseState 0 ⟨0, PGT_l2_page_table, 0, 0⟩

/-- Frame 0 holds one plain (read-only) reference; the L1 entry at
physical address 0 maps frame 0 read-only and present. -/
def c2State : Xen := setMem (setFrame baseState 0 ⟨0, 0, 0, 1⟩) 0 1

/-- Frame 0 is an L2 directory (one reference) whose entry 16 -- inside
the guest portion -- is present and points at the L1 table in frame 1
(one reference). -/
def c3State : Xen :=
  setMem (setFrame (setFrame baseState 0 ⟨0, PGT_l2_page_table, 1, 1⟩) 1
            ⟨0, PGT_l1_page_table, 1, 1⟩)
    (l1e_addr 0 16) ((1 <<< 12) ||| 1)

/-- Frame 2 is an L1 table owned by domain 0. -/
def c4State : Xen := setFrame baseState 2 ⟨0, PGT_l1_page_table, 0, 0⟩

/-- Frame 0 is an L1 table with type count 2 and total count 3. -/
def c5State : Xen := setFrame baseState 0 ⟨0, PGT_l1_page_table, 2, 3⟩

/-- Frame 0 has type *writeable* with zero counts. -/
def c6State : Xen := setFrame baseState 0 ⟨0, PGT_writeable_page, 0, 0⟩

/-- Frame 0 has type *writeable* with one reference of each kind. -/
def c7State : Xen := setFrame baseState 0 ⟨0, PGT_writeable_page, 1, 1⟩

/-- An extended-command request whose pointer has low bits `10`. -/
def c9Req : PageUpdateRequest := ⟨8194, 7⟩

/-- A request whose pointer has both low bits set (kind field `11`). -/
def c10Req : PageUpdateRequest := ⟨7, 0⟩

/-! ### Arithmetic and bit-level helper lemmas -/

theorem u32_id {c : Nat} (h : c < 4294967296) : u32 c = c :=
  Nat.mod_eq_of_lt h

theorem u32_pred {c : Nat} (h0 : 0 < c) (hb : c < 4294967296) :
    u32 (c + 4294967295) = c - 1 := by
  unfold u32
  rw [show c + 4294967295 = (c - 1) + 1 * 4294967296 by omega,
      Nat.add_mul_mod_self_right, Nat.mod_eq_of_lt (by omega)]

theorem toInt32_small {c : Nat} (h : c < 2147483648) : toInt32 c = (c : Int) := by
  unfold toInt32
  rw [if_pos h]

theorem testBit_false_of_lt {x n i : Nat} (h : x < 2 ^ n) (hi : n ≤ i) :
    x.testBit i = false :=
  Nat.testBit_lt_two_pow (lt_of_lt_of_le h (Nat.pow_le_pow_right (by omega) hi))

theorem land_pin_eq_zero {c : Nat} (h : c < 2 ^ 30) : c &&& REFCNT_PIN_BIT = 0 := by
  apply Nat.eq_of_testBit_eq
  intro i
  rw [Nat.testBit_land, REFCNT_PIN_BIT, Nat.one_shiftLeft, Nat.testBit_two_pow,
      Nat.zero_testBit]
  by_cases h30 : 30 = i
  · subst h30
    rw [Nat.testBit_lt_two_pow h]
    rfl
  · simp [h30]

theorem lor_pin_land_pin (c : Nat) : (c ||| REFCNT_PIN_BIT) &&& REFCNT_PIN_BIT ≠ 0 := by
  intro h
  have := congrArg (fun x => x.testBit 30) h
  simp only [Nat.testBit_land, Nat.testBit_lor, Nat.zero_testBit, REFCNT_PIN_BIT,
    Nat.one_shiftLeft, Nat.testBit_two_pow_self, Bool.or_true, Bool.true_and] at this
  exact Bool.noConfusion this

theorem lor_pin_land_notpin {c : Nat} (h : c < 2 ^ 30) :
    (c ||| REFCNT_PIN_BIT) &&& NOT_PIN_BIT = c := by
  apply Nat.eq_of_testBit_eq
  intro i
  rw [Nat.testBit_land, Nat.testBit_lor, NOT_PIN_BIT, REFCNT_PIN_BIT, Nat.one_shiftLeft,
      show (4294967295 : Nat) = 2 ^ 32 - 1 by norm_num, Nat.testBit_xor,
      Nat.testBit_two_pow_sub_one, Nat.testBit_two_pow]
  by_cases h30 : 30 = i
  · subst h30
    rw [Nat.testBit_lt_two_pow h]
    rfl
  · by_cases h32 : i < 32
    · simp [h30, h32]
    · rw [testBit_false_of_lt h (by omega)]
      simp [h30, h32]

theorem lor3_eq_l1_iff {a t b : Nat} (ha : a < 2 ^ 24) (hb : b < 2 ^ 24)
    (ht : t = PGT_none ∨ t = PGT_l1_page_table ∨ t = PGT_l2_page_table ∨
          t = PGT_writeable_page) :
    (a ||| t) ||| b = PGT_l1_page_table ↔ (a = 0 ∧ t = PGT_l1_page_table ∧ b = 0) := by
  have hl1 : PGT_l1_page_table = 2 ^ 24 := by decide
  constructor
  · intro h
    rcases ht with rfl | rfl | rfl | rfl
    · exfalso
      rw [PGT_none, Nat.or_zero] at h
      have := Nat.or_lt_two_pow ha hb
      omega
    · have hbits : ∀ i, i < 24 → a.testBit i = false ∧ b.testBit i = false := by
        intro i hi
        have hc := congrArg (fun x => Nat.testBit x i) h
        simp only [Nat.testBit_lor, hl1, Nat.testBit_two_pow] at hc
        have h24 : ¬ (24 = i) := by omega
        simp only [h24, decide_False] at hc
        constructor
        · cases hv : a.testBit i <;> simp [hv] at hc ⊢
        · cases hv : b.testBit i <;> simp [hv] at hc ⊢
      refine ⟨?_, rfl, ?_⟩
      · apply Nat.eq_of_testBit_eq
        intro i
        rw [Nat.zero_testBit]
        by_cases hi : i < 24
        · exact (hbits i hi).1
        · exact testBit_false_of_lt ha (by omega)
      · apply Nat.eq_of_testBit_eq
        intro i
        rw [Nat.zero_testBit]
        by_cases hi : i < 24
        · exact (hbits i hi).2
        · exact testBit_false_of_lt hb (by omega)
    · exfalso
      have hc := congrArg (fun x => Nat.testBit x 25) h
      simp only [Nat.testBit_lor, hl1, Nat.testBit_two_pow,
        show PGT_l2_page_table = 2 ^ 25 by decide] at hc
      simp at hc
    · exfalso
      have hc := congrArg (fun x => Nat.testBit x 25) h
      simp only [Nat.testBit_lor, hl1, Nat.testBit_two_pow] at hc
      rw [show Nat.testBit PGT_writeable_page 25 = true by decide] at hc
      simp at hc
  · rintro ⟨rfl, rfl, rfl⟩
    simp

theorem land_notmask_shiftRight {x : Nat} (h : x < 2 ^ 32) :
    (x &&& NOT_l1e_mask) >>> 12 = x >>> 12 := by
  apply Nat.eq_of_testBit_eq
  intro i
  rw [Nat.testBit_shiftRight, Nat.testBit_shiftRight, Nat.testBit_land, NOT_l1e_mask,
      show (4294967295 : Nat) = 2 ^ 32 - 1 by norm_num,
      show (3 : Nat) = 2 ^ 2 - 1 by norm_num,
      Nat.testBit_xor, Nat.testBit_two_pow_sub_one, Nat.testBit_two_pow_sub_one]
  by_cases h32 : 12 + i < 32
  · simp [h32, show ¬ (12 + i < 2) by omega]
  · rw [testBit_false_of_lt h (by omega)]
    simp

/-! ### State-algebra helper lemmas -/

theorem setFrame_frames_self (s : Xen) (n : Nat) (p : Pfn_info) :
    (setFrame s n p).frames n = p := by
  simp [setFrame]

theorem setFrame_setFrame (s : Xen) (n : Nat) (p q : Pfn_info) :
    setFrame (setFrame s n p) n q = setFrame s n q := by
  unfold setFrame
  congr 1
  funext m
  by_cases h : m = n <;> simp [h]

theorem setFrame_id (s : Xen) (n : Nat) : setFrame s n (s.frames n) = s := by
  cases s
  unfold setFrame
  simp only [Xen.mk.injEq, and_true, true_and]
  funext m
  by_cases h : m = n <;> simp [h]

theorem setFrame_curdom (s : Xen) (n : Nat) (p : Pfn_info) :
    (setFrame s n p).curdom = s.curdom := rfl

theorem setFrame_max_page (s : Xen) (n : Nat) (p : Pfn_info) :
    (setFrame s n p).max_page = s.max_page := rfl

theorem setFrame_mem (s : Xen) (n : Nat) (p : Pfn_info) :
    (setFrame s n p).mem = s.mem := rfl

/-! ### Reference-accounting helper lemmas -/

theorem inc_page_refcnt_success (s : Xen) (pfn ty : Nat)
    (h1 : pfn < s.max_page) (h2 : (s.frames pfn).owner = s.curdom)
    (h5 : (s.frames pfn).typ = ty ∨ (s.frames pfn).type_count = 0)
    (hcb : (s.frames pfn).type_count + 1 < 4294967296)
    (htb : (s.frames pfn).tot_count + 1 < 4294967296)
    (hcs : (s.frames pfn).type_count < 2147483648) :
    inc_page_refcnt s pfn ty =
      (((s.frames pfn).type_count : Int),
       setFrame s pfn
         { s.frames pfn with
             typ := (s.frames pfn).typ ||| ty,
             type_count := (s.frames pfn).type_count + 1,
             tot_count := (s.frames pfn).tot_count + 1 }) := by
  unfold inc_page_refcnt get_page_tot get_page_type
  rw [if_neg (by omega), if_neg (by simp [h2]),
      if_neg (by rcases h5 with h | h <;> simp [h])]
  by_cases hty : (s.frames pfn).typ = ty
  · rw [if_neg (by simp [hty])]
    simp [u32_id htb, u32_id hcb, toInt32_small hcs, hty, Nat.or_self]
  · rw [if_pos hty]
    simp [u32_id htb, u32_id hcb, toInt32_small hcs]

theorem dec_page_refcnt_release (s : Xen) (pfn ty : Nat)
    (hr : pfn < s.max_page)
    (hty : (s.frames pfn).typ = ty)
    (how : (s.frames pfn).owner = s.curdom)
    (hc : 0 < (s.frames pfn).type_count)
    (hcb : (s.frames pfn).type_count < 2147483648)
    (ht : 0 < (s.frames pfn).tot_count)
    (htb : (s.frames pfn).tot_count < 4294967296) :
    dec_page_refcnt s pfn ty =
      ((((s.frames pfn).type_count - 1 : Nat) : Int),
       setFrame s pfn
         { s.frames pfn with
             typ := if (s.frames pfn).type_count - 1 = 0 then PGT_none
                    else (s.frames pfn).typ,
             type_count := (s.frames pfn).type_count - 1,
             tot_count := (s.frames pfn).tot_count - 1 }) := by
  unfold dec_page_refcnt put_page_type put_page_tot
  rw [if_neg (by omega), if_neg (by simp [hty, how])]
  have hc1 : u32 ((s.frames pfn).type_count + 4294967295) =
      (s.frames pfn).type_count - 1 := u32_pred hc (by omega)
  have ht1 : u32 ((s.frames pfn).tot_count + 4294967295) =
      (s.frames pfn).tot_count - 1 := u32_pred ht htb
  have hti : toInt32 ((s.frames pfn).type_count - 1) =
      (((s.frames pfn).type_count - 1 : Nat) : Int) := toInt32_small (by omega)
  by_cases hz : (s.frames pfn).type_count - 1 = 0
  · simp [hc1, ht1, hti, hz, show toInt32 0 = 0 from rfl]
  · simp [hc1, ht1, hti, hz]

set_option maxRecDepth 4000 in
theorem get_l1_table_already (s : Xen) (pfn : Nat)
    (h1 : pfn < s.max_page) (h2 : (s.frames pfn).owner = s.curdom)
    (hty : (s.frames pfn).typ = PGT_l1_page_table)
    (hc0 : 0 < (s.frames pfn).type_count)
    (hcb : (s.frames pfn).type_count + 1 < 4294967296)
    (htb : (s.frames pfn).tot_count + 1 < 4294967296)
    (hcs : (s.frames pfn).type_count < 2147483648) :
    get_l1_table s pfn =
      (0, setFrame s pfn
            { s.frames pfn with
                type_count := (s.frames pfn).type_count + 1,
                tot_count := (s.frames pfn).tot_count + 1 }) := by
  unfold get_l1_table
  rw [inc_page_refcnt_success s pfn PGT_l1_page_table h1 h2 (Or.inl hty) hcb htb hcs]
  have hne := eq_false (show ¬ ((((s.frames pfn).type_count : Int)) = 0) by omega)
  have hlt := eq_false (show ¬ ((((s.frames pfn).type_count : Int)) < 0) by omega)
  simp only [hty, Nat.or_self, ne_eq, hne, hlt, not_false_eq_true, if_true, if_false,
    ite_true, ite_false]

set_option maxRecDepth 4000 in
theorem get_l2_table_already (s : Xen) (pfn : Nat)
    (h1 : pfn < s.max_page) (h2 : (s.frames pfn).owner = s.curdom)
    (hty : (s.frames pfn).typ = PGT_l2_page_table)
    (hc0 : 0 < (s.frames pfn).type_count)
    (hcb : (s.frames pfn).type_count + 1 < 4294967296)
    (htb : (s.frames pfn).tot_count + 1 < 4294967296)
    (hcs : (s.frames pfn).type_count < 2147483648) :
    get_l2_table s pfn =
      (0, setFrame s pfn
            { s.frames pfn with
                type_count := (s.frames pfn).type_count + 1,
                tot_count := (s.frames pfn).tot_count + 1 }) := by
  unfold get_l2_table
  rw [inc_page_refcnt_success s pfn PGT_l2_page_table h1 h2 (Or.inl hty) hcb htb hcs]
  have hne := eq_false (show ¬ ((((s.frames pfn).type_count : Int)) = 0) by omega)
  have hlt := eq_false (show ¬ ((((s.frames pfn).type_count : Int)) < 0) by omega)
  simp only [hty, Nat.or_self, ne_eq, hne, hlt, not_false_eq_true, if_true, if_false,
    ite_true, ite_false]

theorem shiftLR (n : Nat) : (n <<< PAGE_SHIFT) >>> PAGE_SHIFT = n := by
  rw [PAGE_SHIFT, Nat.shiftLeft_eq, Nat.shiftRight_eq_div_pow]
  exact Nat.mul_div_cancel n (by norm_num)

/-! ### Memory-preservation lemmas for the entry modifiers -/

theorem inc_page_refcnt_preserves_mem (s : Xen) (n ty : Nat) :
    (inc_page_refcnt s n ty).2.mem = s.mem := by
  simp only [inc_page_refcnt]
  repeat' split
  all_goals rfl

theorem dec_page_refcnt_preserves_mem (s : Xen) (n ty : Nat) :
    (dec_page_refcnt s n ty).2.mem = s.mem := by
  simp only [dec_page_refcnt]
  repeat' split
  all_goals rfl

theorem get_page_preserves_mem (s : Xen) (n w : Nat) :
    (get_page s n w).2.mem = s.mem := by
  simp only [get_page]
  repeat' split
  all_goals rfl

theorem put_page_preserves_mem (s : Xen) (n w : Nat) :
    (put_page s n w).mem = s.mem := by
  simp only [put_page]
  repeat' split
  all_goals rfl

theorem get_l1_loop_preserves_mem (n : Nat) (l : List Nat) :
    ∀ s : Xen, (get_l1_loop n l s).2.mem = s.mem := by
  induction l with
  | nil => intro s; rfl
  | cons i rest ih =>
    intro s
    simp only [get_l1_loop]
    split
    · exact ih s
    · split
      · rfl
      · rcases hgp : get_page s (s.mem (l1e_addr n i) >>> PAGE_SHIFT)
            (s.mem (l1e_addr n i) &&& PAGE_RW) with ⟨r, s2⟩
        have hm : s2.mem = s.mem := by
          have h2 := get_page_preserves_mem s (s.mem (l1e_addr n i) >>> PAGE_SHIFT)
            (s.mem (l1e_addr n i) &&& PAGE_RW)
          rw [hgp] at h2
          exact h2
        simp only [hgp]
        split
        · exact hm
        · rw [ih s2, hm]

theorem get_l1_table_preserves_mem (s : Xen) (n : Nat) :
    (get_l1_table s n).2.mem = s.mem := by
  simp only [get_l1_table]
  rcases hic : inc_page_refcnt s n PGT_l1_page_table with ⟨r, s2⟩
  have hm : s2.mem = s.mem := by
    have h2 := inc_page_refcnt_preserves_mem s n PGT_l1_page_table
    rw [hic] at h2
    exact h2
  simp only [hic]
  split
  · exact hm
  · rw [get_l1_loop_preserves_mem n _ s2, hm]

theorem put_l1_loop_preserves_mem (n : Nat) (l : List Nat) :
    ∀ s : Xen, (put_l1_loop n l s).mem = s.mem := by
  induction l with
  | nil => intro s; rfl
  | cons i rest ih =>
    intro s
    simp only [put_l1_loop]
    split
    · rw [ih _, put_page_preserves_mem]
    · exact ih s

theorem put_l1_table_preserves_mem (s : Xen) (n : Nat) :
    (put_l1_table s n).mem = s.mem := by
  simp only [put_l1_table]
  rcases hdc : dec_page_refcnt s n PGT_l1_page_table with ⟨r, s2⟩
  have hm : s2.mem = s.mem := by
    have h2 := dec_page_refcnt_preserves_mem s n PGT_l1_page_table
    rw [hdc] at h2
    exact h2
  simp only [hdc]
  split
  · exact hm
  · rw [put_l1_loop_preserves_mem n _ s2, hm]

theorem setMem_self_mem (s : Xen) (pa : Nat) : (setMem s pa (s.mem pa)).mem = s.mem := by
  funext b
  by_cases hb : b = pa <;> simp [setMem, hb]

theorem setMem_restore_mem {s t : Xen} (pa v : Nat) (h : t.mem = (setMem s pa v).mem) :
    (setMem t pa (s.mem pa)).mem = s.mem := by
  funext b
  by_cases hb : b = pa
  · simp [setMem, hb]
  · have := congrFun h b
    simp only [setMem, hb] at this ⊢
    simpa [hb] using this


/-! ### The claims -/

/-- Claim C1, counterexample to the claim as stated: on a frame whose
type is *L2-table* with zero type count, `inc_page_refcnt` with
requested type *L1-table* succeeds (does not return -1) yet leaves the
frame's type different from the requested type (the C `page->flags |=
type` ORs the bits, yielding *writeable*), contradicting "otherwise
commits the requested type". -/
theorem C1_counterexample :
    (c1State.frames 0).typ ≠ PGT_l1_page_table ∧
    (c1State.frames 0).type_count = 0 ∧
    (inc_page_refcnt c1State 0 PGT_l1_page_table).1 ≠ -1 ∧
    ((inc_page_refcnt c1State 0 PGT_l1_page_table).2.frames 0).typ ≠
      PGT_l1_page_table := by
  decide

/-- Claim C1 (amended): for every pfn and requested type,
`inc_page_refcnt` fails (returns -1 with the state unchanged) if
`pfn ≥ max_page`, or the frame's owner is not the current domain, or
the frame's type differs from the requested type while its type count
is nonzero; otherwise it ORs the requested type's bits into the type
field (equal to the requested type exactly when the previous type was
none), increments both `tot_count` and `type_count`, and returns the
pre-increment `type_count` -- 0 exactly on the first reference of the
incarnation. -/
theorem C1_inc_page_refcnt_characterisation (s : Xen) (pfn ty : Nat) :
    (s.max_page ≤ pfn → inc_page_refcnt s pfn ty = (-1, s)) ∧
    (pfn < s.max_page → (s.frames pfn).owner ≠ s.curdom →
       inc_page_refcnt s pfn ty = (-1, s)) ∧
    (pfn < s.max_page → (s.frames pfn).owner = s.curdom →
       (s.frames pfn).typ ≠ ty → (s.frames pfn).type_count ≠ 0 →
       inc_page_refcnt s pfn ty = (-1, s)) ∧
    (pfn < s.max_page → (s.frames pfn).owner = s.curdom →
       ((s.frames pfn).typ = ty ∨ (s.frames pfn).type_count = 0) →
       (s.frames pfn).type_count + 1 < 4294967296 →
       (s.frames pfn).tot_count + 1 < 4294967296 →
       (s.frames pfn).type_count < 2147483648 →
       inc_page_refcnt s pfn ty =
         (((s.frames pfn).type_count : Int),
          setFrame s pfn
            { s.frames pfn with
                typ := (s.frames pfn).typ ||| ty,
                type_count := (s.frames pfn).type_count + 1,
                tot_count := (s.frames pfn).tot_count + 1 })) := by
  refine ⟨?_, ?_, ?_,
    fun h1 h2 h5 hcb htb hcs => inc_page_refcnt_success s pfn ty h1 h2 h5 hcb htb hcs⟩
  · intro h
    unfold inc_page_refcnt
    rw [if_pos h]
  · intro h1 h2
    unfold inc_page_refcnt
    rw [if_neg (by omega), if_pos h2]
  · intro h1 h2 h3 h4
    unfold inc_page_refcnt
    rw [if_neg (by omega), if_neg (by simp [h2]), if_pos ⟨h3, h4⟩]

/-- Claim C1, witness: the amended characterisation applied to the
concrete base state at frame 1 (type none, zero counts). -/
theorem C1_witness :
    inc_page_refcnt baseState 1 PGT_l1_page_table =
      (((baseState.frames 1).type_count : Int),
       setFrame baseState 1
         { baseState.frames 1 with
             typ := (baseState.frames 1).typ ||| PGT_l1_page_table,
             type_count := (baseState.frames 1).type_count + 1,
             tot_count := (baseState.frames 1).tot_count + 1 }) :=
  (C1_inc_page_refcnt_characterisation baseState 1 PGT_l1_page_table).2.2.2
    (by decide) (by decide) (Or.inr (by decide)) (by decide) (by decide) (by decide)

/-- Claim C2, counterexample to the claim as stated: `mod_l1_entry` on
an entry whose old value maps frame 0 read-only and whose new value
references an out-of-range pfn fails, yet frame 0's record differs from
its pre-call state (its `tot_count` was decremented by the release of
the old referent and is not rolled back). -/
theorem C2_counterexample :
    (mod_l1_entry c2State 0 20481).1 ≠ 0 ∧
    (mod_l1_entry c2State 0 20481).2.frames 0 ≠ c2State.frames 0 := by
  decide

/-- Claim C2 (amended): whenever `mod_l1_entry` or `mod_l2_entry`
returns failure, guest memory -- in particular the targeted page-table
entry -- is byte-identical to its pre-call state (for `mod_l2_entry`
the speculatively written value is overwritten with the old value); the
frame table, however, may retain the release of the old referent and
partial acquisitions of the new referent. -/
theorem C2_mod_entry_failure_preserves_memory :
    (∀ (s : Xen) (pa v : Nat), (mod_l1_entry s pa v).1 ≠ 0 →
       (mod_l1_entry s pa v).2.mem = s.mem) ∧
    (∀ (s : Xen) (pa v : Nat), (mod_l2_entry s pa v).1 ≠ 0 →
       (mod_l2_entry s pa v).2.mem = s.mem) := by
  constructor
  · intro s pa v
    simp only [mod_l1_entry]
    split
    · split
      · intro _
        rfl
      · split
        · split
          · split
            · intro _
              exact Eq.trans (get_page_preserves_mem _ _ _) (put_page_preserves_mem _ _ _)
            · intro h
              exact absurd rfl h
          · split
            · intro _
              exact get_page_preserves_mem _ _ _
            · intro h
              exact absurd rfl h
        · intro h
          exact absurd rfl h
    · intro h
      exact absurd rfl h
  · intro s pa v
    simp only [mod_l2_entry]
    split
    · intro _
      exact setMem_self_mem s pa
    · split
      · split
        · intro _
          exact setMem_restore_mem pa v rfl
        · split
          · split
            · split
              · intro _
                refine setMem_restore_mem pa v ?_
                rw [get_l1_table_preserves_mem]
                exact put_l1_table_preserves_mem _ _
              · intro h
                exact absurd rfl h
            · split
              · intro _
                refine setMem_restore_mem pa v ?_
                exact get_l1_table_preserves_mem _ _
              · intro h
                exact absurd rfl h
          · intro h
            exact absurd rfl h
      · split
        · intro h
          exact absurd rfl h
        · intro h
          exact absurd rfl h

/-- Claim C2, witness: the amended theorem applied to the concrete
failing `mod_l1_entry` call of the counterexample state. -/
theorem C2_witness :
    (mod_l1_entry c2State 0 20481).2.mem = c2State.mem :=
  C2_mod_entry_failure_preserves_memory.1 c2State 0 20481 (by decide)

set_option maxRecDepth 100000 in
/-- Claim C3 (code bug): dropping the last type reference of the L2
directory in frame 0 succeeds and releases the directory itself, but
the entry loop of `put_l2_table` runs only over indices
`0 ≤ i < HYPERVISOR_ENTRIES_PER_L2_PAGETABLE` (16) instead of the guest
portion `0 ≤ i < DOMAIN_ENTRIES_PER_L2_PAGETABLE` (1008) that
`get_l2_table` acquired: the present guest entry at index 16 is never
visited, so its referent (frame 1, an L1 table) keeps its reference --
whereas `put_l1_table` applied to that referent, as the claim requires,
does change it. -/
theorem C3_put_l2_table_truncated_walk :
    c3State.mem (l1e_addr 0 16) &&& PAGE_PRESENT ≠ 0 ∧
    16 < DOMAIN_ENTRIES_PER_L2_PAGETABLE ∧
    (put_l2_table c3State 0).1 = 0 ∧
    ((put_l2_table c3State 0).2.frames 0).type_count = 0 ∧
    (put_l2_table c3State 0).2.frames 1 = c3State.frames 1 ∧
    (put_l1_table c3State (c3State.mem (l1e_addr 0 16) >>> PAGE_SHIFT)).frames 1 ≠
      c3State.frames 1 := by
  decide

/-- Claim C4: an unchecked update request (`ptr` low bits `01`)
succeeds -- writing `val` directly into the entry at the masked address
with no reference-count updates -- if and only if the current domain's
identifier is 0, the targeted frame's type is *L1-table*, and its owner
is domain 0; in every other case the request fails (`err = 1`, state
unchanged).  The hypotheses record the field widths of the packed
`flags` word: owner and domain identifiers occupy the low 24 bits and
the type tag is one of the four `PGT_*` values. -/
theorem C4_unchecked_update_privilege (s : Xen) (ptr val : Nat)
    (hk : ptr &&& 3 = PGREQ_UNCHECKED_UPDATE)
    (ho : (s.frames (ptr >>> PAGE_SHIFT)).owner < 2 ^ 24)
    (hd : s.curdom < 2 ^ 24)
    (ht : (s.frames (ptr >>> PAGE_SHIFT)).typ = PGT_none ∨
          (s.frames (ptr >>> PAGE_SHIFT)).typ = PGT_l1_page_table ∨
          (s.frames (ptr >>> PAGE_SHIFT)).typ = PGT_l2_page_table ∨
          (s.frames (ptr >>> PAGE_SHIFT)).typ = PGT_writeable_page) :
    ((do_update_request s ptr val).1 = 0 ↔
       (s.curdom = 0 ∧ (s.frames (ptr >>> PAGE_SHIFT)).typ = PGT_l1_page_table ∧
        (s.frames (ptr >>> PAGE_SHIFT)).owner = 0)) ∧
    ((do_update_request s ptr val).1 = 0 →
       (do_update_request s ptr val).2 = setMem s (ptr &&& NOT_l1e_mask) val) ∧
    ((do_update_request s ptr val).1 ≠ 0 →
       (do_update_request s ptr val).1 = 1 ∧ (do_update_request s ptr val).2 = s) := by
  have hred : do_update_request s ptr val =
      (if ((s.frames (ptr >>> PAGE_SHIFT)).owner |||
            (s.frames (ptr >>> PAGE_SHIFT)).typ) ||| s.curdom = PGT_l1_page_table then
         (0, setMem s (ptr &&& NOT_l1e_mask) val)
       else (1, s)) := by
    unfold do_update_request
    rw [if_neg (by rw [hk]; decide), if_pos hk]
  by_cases hcond : (s.frames (ptr >>> PAGE_SHIFT)).owner = 0 ∧
      (s.frames (ptr >>> PAGE_SHIFT)).typ = PGT_l1_page_table ∧ s.curdom = 0
  · rw [hred, if_pos ((lor3_eq_l1_iff ho hd ht).mpr hcond)]
    refine ⟨?_, fun _ => rfl, fun h => absurd rfl h⟩
    simp [hcond.1, hcond.2.1, hcond.2.2]
  · rw [hred, if_neg (fun hc => hcond ((lor3_eq_l1_iff ho hd ht).mp hc))]
    refine ⟨⟨?_, ?_⟩, ?_, fun _ => ⟨rfl, rfl⟩⟩
    · intro h
      simp at h
    · intro h
      exact (hcond ⟨h.2.2, h.2.1, h.1⟩).elim
    · intro h
      simp at h

/-- Claim C4, witness: on the concrete state whose frame 2 is an
L1 table owned by domain 0, with current domain 0, the unchecked
request `(ptr, val) = (8193, 77)` succeeds and writes 77 at the masked
address. -/
theorem C4_witness :
    (do_update_request c4State 8193 77).1 = 0 ∧
    (do_update_request c4State 8193 77).2 = setMem c4State (8193 &&& NOT_l1e_mask) 77 := by
  have h := C4_unchecked_update_privilege c4State 8193 77 (by decide) (by decide)
    (by decide) (Or.inr (Or.inl (by decide)))
  have h0 : (do_update_request c4State 8193 77).1 = 0 :=
    h.1.mpr ⟨by decide, by decide, by decide⟩
  exact ⟨h0, h.2.1 h0⟩

/-- Claim C5: `dec_page_refcnt` on an in-range frame whose owner is the
current domain and whose type equals the given type decrements
`type_count`, clears the type to none exactly when the new type count
is 0, decrements `tot_count`, and returns the new type count.  The
count hypotheses record the 32-bit range and the caller-guaranteed
`ASSERT(page_type_count(page) != 0)`. -/
theorem C5_dec_page_refcnt_release (s : Xen) (pfn ty : Nat)
    (hr : pfn < s.max_page)
    (hty : (s.frames pfn).typ = ty)
    (how : (s.frames pfn).owner = s.curdom)
    (hc : 0 < (s.frames pfn).type_count)
    (hcb : (s.frames pfn).type_count < 2147483648)
    (ht : 0 < (s.frames pfn).tot_count)
    (htb : (s.frames pfn).tot_count < 4294967296) :
    dec_page_refcnt s pfn ty =
      ((((s.frames pfn).type_count - 1 : Nat) : Int),
       setFrame s pfn
         { s.frames pfn with
             typ := if (s.frames pfn).type_count - 1 = 0 then PGT_none
                    else (s.frames pfn).typ,
             type_count := (s.frames pfn).type_count - 1,
             tot_count := (s.frames pfn).tot_count - 1 }) :=
  dec_page_refcnt_release s pfn ty hr hty how hc hcb ht htb

/-- Claim C5, witness: the release specification applied to the
concrete state whose frame 0 is an L1 table with type count 2 and
total count 3. -/
theorem C5_witness :
    dec_page_refcnt c5State 0 PGT_l1_page_table =
      ((((c5State.frames 0).type_count - 1 : Nat) : Int),
       setFrame c5State 0
         { c5State.frames 0 with
             typ := if (c5State.frames 0).type_count - 1 = 0 then PGT_none
                    else (c5State.frames 0).typ,
             type_count := (c5State.frames 0).type_count - 1,
             tot_count := (c5State.frames 0).tot_count - 1 }) :=
  C5_dec_page_refcnt_release c5State 0 PGT_l1_page_table (by decide) (by decide)
    (by decide) (by decide) (by decide) (by decide) (by decide)


set_option maxRecDepth 100000 in
/-- Claim C6, counterexample to the claim as stated: frame 0 has type
*writeable* with zero counts; PIN_L1 succeeds (the acquire commits the
type by ORing, leaving *writeable*), UNPIN also succeeds, yet the final
frame state differs from the pre-pin state (the unpin's release goes to
`put_l2_table`, whose type check fails, stranding the counts at 1). -/
theorem C6_counterexample :
    (do_extended_command c6State 0 PGEXT_PIN_L1_TABLE).1 = 0 ∧
    (do_extended_command (do_extended_command c6State 0 PGEXT_PIN_L1_TABLE).2 0
        PGEXT_UNPIN_TABLE).1 = 0 ∧
    (do_extended_command (do_extended_command c6State 0 PGEXT_PIN_L1_TABLE).2 0
        PGEXT_UNPIN_TABLE).2.frames 0 ≠ c6State.frames 0 := by
  decide

set_option maxRecDepth 8000 in
/-- Claim C6 (amended): for every in-range frame owned by the current
domain whose type already equals the pinned table type (PIN_L1 on an
*L1-table*, PIN_L2 on an *L2-table*) with nonzero type count, and whose
counts stay below the pin bit, a successful PIN followed immediately by
UNPIN with no intervening references restores the entire machine state
-- in particular the frame's type, type count, total count and pin bit
-- exactly.  (Type-none frames are excluded: the pin commits a type
that the unpin's release then clears to none, and for PIN_L2 the
release walk is truncated; see C3.) -/
theorem C6_pin_unpin_restores_typed_frame (s : Xen) (pfn cmd : Nat)
    (hmp : pfn < s.max_page)
    (how : (s.frames pfn).owner = s.curdom)
    (hc0 : 0 < (s.frames pfn).type_count)
    (hcb : (s.frames pfn).type_count + 1 < 2 ^ 30)
    (htb : (s.frames pfn).tot_count + 1 < 2 ^ 30)
    (hcmd : (cmd = PGEXT_PIN_L1_TABLE ∧ (s.frames pfn).typ = PGT_l1_page_table) ∨
            (cmd = PGEXT_PIN_L2_TABLE ∧ (s.frames pfn).typ = PGT_l2_page_table)) :
    (do_extended_command s (pfn <<< PAGE_SHIFT) cmd).1 = 0 ∧
    (do_extended_command (do_extended_command s (pfn <<< PAGE_SHIFT) cmd).2
        (pfn <<< PAGE_SHIFT) PGEXT_UNPIN_TABLE).1 = 0 ∧
    (do_extended_command (do_extended_command s (pfn <<< PAGE_SHIFT) cmd).2
        (pfn <<< PAGE_SHIFT) PGEXT_UNPIN_TABLE).2 = s := by
  have hpfn : extcmd_pfn (pfn <<< PAGE_SHIFT) = pfn := shiftLR pfn
  have hcb32 : (s.frames pfn).type_count + 1 < 4294967296 := by
    have : (2 : Nat) ^ 30 < 4294967296 := by norm_num
    omega
  have htb32 : (s.frames pfn).tot_count + 1 < 4294967296 := by
    have : (2 : Nat) ^ 30 < 4294967296 := by norm_num
    omega
  have hcs : (s.frames pfn).type_count < 2147483648 := by
    have : (2 : Nat) ^ 30 < 2147483648 := by norm_num
    omega
  have hcpin : (s.frames pfn).type_count &&& REFCNT_PIN_BIT = 0 :=
    land_pin_eq_zero (by omega)
  have hdec1 : u32 ((s.frames pfn).type_count + 1 + 4294967295) =
      (s.frames pfn).type_count := by
    rw [u32_pred (by omega) hcb32, Nat.add_sub_cancel]
  have hdect : u32 ((s.frames pfn).tot_count + 1 + 4294967295) =
      (s.frames pfn).tot_count := by
    rw [u32_pred (by omega) htb32, Nat.add_sub_cancel]
  have hpin : do_extended_command s (pfn <<< PAGE_SHIFT) cmd =
      (0, setFrame s pfn
            { s.frames pfn with
                type_count := (s.frames pfn).type_count ||| REFCNT_PIN_BIT,
                tot_count := (s.frames pfn).tot_count ||| REFCNT_PIN_BIT }) := by
    have hmark : mark_as_pinned 0
        (setFrame s pfn
          { s.frames pfn with
              type_count := (s.frames pfn).type_count + 1,
              tot_count := (s.frames pfn).tot_count + 1 }) pfn =
        (0, setFrame s pfn
              { s.frames pfn with
                  type_count := (s.frames pfn).type_count ||| REFCNT_PIN_BIT,
                  tot_count := (s.frames pfn).tot_count ||| REFCNT_PIN_BIT }) := by
      have ez : ((0 : Int) ≠ 0) = False := eq_false (fun h => h rfl)
      have ep : ((s.frames pfn).type_count &&& REFCNT_PIN_BIT = 0) = True := eq_true hcpin
      simp only [mark_as_pinned, put_page_type, put_page_tot, ez, if_false, ite_false,
        setFrame_frames_self, hdec1, hdect, ep, if_true, ite_true, setFrame_setFrame]
    rcases hcmd with ⟨rfl, hty⟩ | ⟨rfl, hty⟩
    · have hget := get_l1_table_already s pfn hmp how hty hc0 hcb32 htb32 hcs
      have e1 : (PGEXT_PIN_L1_TABLE &&& PGEXT_CMD_MASK = PGEXT_PIN_L1_TABLE) = True :=
        eq_true (by decide)
      simp only [do_extended_command, hpfn, e1, if_true, ite_true, hget]
      exact hmark
    · have hget := get_l2_table_already s pfn hmp how hty hc0 hcb32 htb32 hcs
      have e1 : (PGEXT_PIN_L2_TABLE &&& PGEXT_CMD_MASK = PGEXT_PIN_L1_TABLE) = False :=
        eq_false (by decide)
      have e2 : (PGEXT_PIN_L2_TABLE &&& PGEXT_CMD_MASK = PGEXT_PIN_L2_TABLE) = True :=
        eq_true (by decide)
      simp only [do_extended_command, hpfn, e1, e2, if_true, if_false, ite_true, ite_false,
        hget]
      exact hmark
  have hunpin : do_extended_command
      (setFrame s pfn
        { s.frames pfn with
            type_count := (s.frames pfn).type_count ||| REFCNT_PIN_BIT,
            tot_count := (s.frames pfn).tot_count ||| REFCNT_PIN_BIT })
      (pfn <<< PAGE_SHIFT) PGEXT_UNPIN_TABLE = (0, s) := by
    have e1 : (PGEXT_UNPIN_TABLE &&& PGEXT_CMD_MASK = PGEXT_PIN_L1_TABLE) = False :=
      eq_false (by decide)
    have e2 : (PGEXT_UNPIN_TABLE &&& PGEXT_CMD_MASK = PGEXT_PIN_L2_TABLE) = False :=
      eq_false (by decide)
    have e3 : (PGEXT_UNPIN_TABLE &&& PGEXT_CMD_MASK = PGEXT_UNPIN_TABLE) = True :=
      eq_true (by decide)
    have e4 : ((s.frames pfn).owner ≠ s.curdom) = False :=
      eq_false (fun h => h how)
    have e5 : (((s.frames pfn).type_count ||| REFCNT_PIN_BIT) &&& REFCNT_PIN_BIT ≠ 0) =
        True := eq_true (lor_pin_land_pin _)
    have e6 : ((s.frames pfn).type_count ||| REFCNT_PIN_BIT) &&& NOT_PIN_BIT =
        (s.frames pfn).type_count := lor_pin_land_notpin (by omega)
    have e7 : ((s.frames pfn).tot_count ||| REFCNT_PIN_BIT) &&& NOT_PIN_BIT =
        (s.frames pfn).tot_count := lor_pin_land_notpin (by omega)
    have hS3 : ∀ q : Pfn_info,
        (setFrame (setFrame s pfn q) pfn
          { s.frames pfn with
              type_count := (s.frames pfn).type_count + 1,
              tot_count := (s.frames pfn).tot_count + 1 }) =
        (setFrame s pfn
          { s.frames pfn with
              type_count := (s.frames pfn).type_count + 1,
              tot_count := (s.frames pfn).tot_count + 1 }) :=
      fun q => setFrame_setFrame s pfn q _
    have hzf : ((s.frames pfn).type_count = 0) = False := eq_false (by omega)
    have hretne : ((((s.frames pfn).type_count : Nat) : Int) = 0) = False :=
      eq_false (by omega)
    have hdrel : ∀ ty : Nat, (s.frames pfn).typ = ty →
        dec_page_refcnt
          (setFrame s pfn
            { s.frames pfn with
                type_count := (s.frames pfn).type_count + 1,
                tot_count := (s.frames pfn).tot_count + 1 }) pfn ty =
        (((s.frames pfn).type_count : Int),
         setFrame s pfn
           { s.frames pfn with
               typ := (s.frames pfn).typ,
               type_count := (s.frames pfn).type_count,
               tot_count := (s.frames pfn).tot_count }) := by
      intro ty hty0
      have h := dec_page_refcnt_release
        (setFrame s pfn
          { s.frames pfn with
              type_count := (s.frames pfn).type_count + 1,
              tot_count := (s.frames pfn).tot_count + 1 }) pfn ty
        (by simpa [setFrame_max_page] using hmp)
        (by simp [setFrame_frames_self, hty0])
        (by simp [setFrame_frames_self, setFrame_curdom, how])
        (by simp [setFrame_frames_self])
        (by simp only [setFrame_frames_self]; omega)
        (by simp [setFrame_frames_self])
        (by simp only [setFrame_frames_self]; omega)
      simp only [setFrame_frames_self, Nat.add_sub_cancel, hzf, if_false, ite_false,
        setFrame_setFrame] at h
      exact h
    rcases hcmd with ⟨hceq, hty⟩ | ⟨hceq, hty⟩ <;>
      [have e8 : ((s.frames pfn).typ = PGT_l1_page_table) = True := eq_true hty;
       have e8 : ((s.frames pfn).typ = PGT_l1_page_table) = False :=
         eq_false (by rw [hty]; decide)]
    · simp only [do_extended_command, hpfn, e1, e2, e3, e4, e5, e6, e7, if_true, if_false,
        ite_true, ite_false, setFrame_frames_self, setFrame_curdom, get_page_type,
        get_page_tot, u32_id hcb32, u32_id htb32, hS3, e8]
      simp only [put_l1_table, hdrel PGT_l1_page_table hty, hretne, ne_eq,
        not_false_eq_true, if_true, ite_true, not_false_iff, setFrame_setFrame]
      exact congrArg _ (setFrame_id s pfn)
    · simp only [do_extended_command, hpfn, e1, e2, e3, e4, e5, e6, e7, if_true, if_false,
        ite_true, ite_false, setFrame_frames_self, setFrame_curdom, get_page_type,
        get_page_tot, u32_id hcb32, u32_id htb32, hS3, e8]
      simp only [put_l2_table, hdrel PGT_l2_page_table hty, hretne, ne_eq,
        not_false_eq_true, if_true, ite_true, not_false_iff, setFrame_setFrame]
      exact congrArg _ (setFrame_id s pfn)
  exact ⟨by rw [hpin], by rw [hpin, hunpin], by rw [hpin, hunpin]⟩


/-- Claim C6, witness: pin/unpin of the L1 table in frame 0 of the
concrete state with type count 2 and total count 3 returns the state
exactly. -/
theorem C6_witness :
    (do_extended_command c5State (0 <<< PAGE_SHIFT) PGEXT_PIN_L1_TABLE).1 = 0 ∧
    (do_extended_command
        (do_extended_command c5State (0 <<< PAGE_SHIFT) PGEXT_PIN_L1_TABLE).2
        (0 <<< PAGE_SHIFT) PGEXT_UNPIN_TABLE).1 = 0 ∧
    (do_extended_command
        (do_extended_command c5State (0 <<< PAGE_SHIFT) PGEXT_PIN_L1_TABLE).2
        (0 <<< PAGE_SHIFT) PGEXT_UNPIN_TABLE).2 = c5State :=
  C6_pin_unpin_restores_typed_frame c5State 0 PGEXT_PIN_L1_TABLE (by decide) (by decide)
    (by decide) (by decide) (by decide) (Or.inl ⟨rfl, by decide⟩)

/-- Claim C7: (1) every `put_page` with writeable true whose decrement
takes the frame's type count to 0 (pre-call count 1) clears the frame's
type to none and sets the local TLB-flush-pending flag; (2) whenever
the request loop completes, the batch dispatcher reloads the root
directory register (`cr3 := pagetable`, the `movl %eax,%cr3`) and
clears the flag if and only if the flag is set after the loop. -/
theorem C7_put_page_flush_and_batch_end :
    (∀ (s : Xen) (pfn w : Nat), w ≠ 0 → (s.frames pfn).type_count = 1 →
       put_page s pfn w =
         setFrame { s with tlbflush := true } pfn
           { s.frames pfn with
               typ := PGT_none, type_count := 0,
               tot_count := u32 ((s.frames pfn).tot_count + 4294967295) }) ∧
    (∀ (s : Xen) (reqs : List PageUpdateRequest) (s' : Xen),
       dpu_loop s reqs = .ok s' →
       do_process_page_updates s reqs =
         .ok (if s'.tlbflush then { s' with tlbflush := false, cr3 := s'.pagetable }
              else s')) := by
  constructor
  · intro s pfn w hw hc
    unfold put_page put_page_type put_page_tot
    rw [if_pos hw]
    have h0 : u32 ((s.frames pfn).type_count + 4294967295) = 0 := by
      rw [hc]
      rfl
    simp [h0]
  · intro s reqs s' h
    unfold do_process_page_updates
    rw [h]
    by_cases hf : s'.tlbflush <;> simp [hf]

/-- Claim C7, witness: the flush specification applied to the concrete
writeable frame with type count 1, and the batch-end reload applied to
the empty request list. -/
theorem C7_witness :
    put_page c7State 0 2 =
      setFrame { c7State with tlbflush := true } 0
        { c7State.frames 0 with
            typ := PGT_none, type_count := 0,
            tot_count := u32 ((c7State.frames 0).tot_count + 4294967295) } ∧
    do_process_page_updates baseState [] =
      .ok (if baseState.tlbflush then
             { baseState with tlbflush := false, cr3 := baseState.pagetable }
           else baseState) :=
  ⟨C7_put_page_flush_and_batch_end.1 c7State 0 2 (by decide) (by decide),
   C7_put_page_flush_and_batch_end.2 baseState [] baseState rfl⟩

/-- Claim C8: on an in-range frame owned by the current domain (with
counts in 32-bit range), `get_page` with writeable false and `put_page`
with writeable false change only `tot_count` -- by plus and minus one
respectively -- and leave the frame's type, type count and pin bit, all
other frames, memory, and the TLB-flush-pending flag unchanged (the
result states are single-frame updates of the input state). -/
theorem C8_readonly_get_put_only_tot (s : Xen) (pfn : Nat)
    (hr : pfn < s.max_page)
    (how : (s.frames pfn).owner = s.curdom)
    (hgb : (s.frames pfn).tot_count + 1 < 4294967296)
    (hpb : 0 < (s.frames pfn).tot_count) :
    get_page s pfn 0 =
      (0, setFrame s pfn
            { s.frames pfn with tot_count := (s.frames pfn).tot_count + 1 }) ∧
    put_page s pfn 0 =
      setFrame s pfn
        { s.frames pfn with tot_count := (s.frames pfn).tot_count - 1 } := by
  constructor
  · unfold get_page get_page_tot
    rw [if_neg (by omega), if_neg (by simp [how]), if_neg (by simp)]
    rw [u32_id hgb]
  · unfold put_page put_page_tot
    rw [if_neg (by simp)]
    rw [u32_pred hpb (by omega)]

/-- Claim C8, witness: the read-only get/put specification applied to
the concrete writeable frame with total count 1. -/
theorem C8_witness :
    get_page c7State 0 0 =
      (0, setFrame c7State 0
            { c7State.frames 0 with tot_count := (c7State.frames 0).tot_count + 1 }) ∧
    put_page c7State 0 0 =
      setFrame c7State 0
        { c7State.frames 0 with tot_count := (c7State.frames 0).tot_count - 1 } :=
  C8_readonly_get_put_only_tot c7State 0 (by decide) (by decide) (by decide) (by decide)

/-- Claim C9: for a 32-bit request pointer that passes the dispatcher's
range guard (`ptr >> PAGE_SHIFT < max_page`), the pfn that
`do_extended_command` derives from the masked pointer it receives
(`ptr & ~(sizeof(l1_pgentry_t)-1)`) equals the guarded pfn, hence its
frame-table index `frame_table + pfn` is below `max_page`. -/
theorem C9_extended_pfn_in_bounds (s : Xen) (r : PageUpdateRequest)
    (hp : r.ptr < 4294967296)
    (hg : r.ptr >>> PAGE_SHIFT < s.max_page) :
    extcmd_pfn (r.ptr &&& NOT_l1e_mask) = r.ptr >>> PAGE_SHIFT ∧
    extcmd_pfn (r.ptr &&& NOT_l1e_mask) < s.max_page := by
  have he : extcmd_pfn (r.ptr &&& NOT_l1e_mask) = r.ptr >>> PAGE_SHIFT := by
    unfold extcmd_pfn PAGE_SHIFT
    exact land_notmask_shiftRight (by simpa using hp)
  exact ⟨he, he ▸ hg⟩

/-- Claim C9, witness: the bound applied to the concrete extended
request with pointer 8194 against the four-frame base state. -/
theorem C9_witness :
    extcmd_pfn (c9Req.ptr &&& NOT_l1e_mask) = c9Req.ptr >>> PAGE_SHIFT ∧
    extcmd_pfn (c9Req.ptr &&& NOT_l1e_mask) < baseState.max_page :=
  C9_extended_pfn_in_bounds baseState c9Req (by decide) (by decide)

/-- Claim C10: a request whose pointer has both low bits set (kind
field `11`, none of normal, unchecked or extended) makes the request
loop kill the submitting domain with the machine state exactly as it
was before the request -- no frame-table or page-table mutation. -/
theorem C10_invalid_kind_kills_without_mutation (s : Xen) (r : PageUpdateRequest)
    (rest : List PageUpdateRequest)
    (h : r.ptr &&& 3 = 3) :
    dpu_loop s (r :: rest) = .killed s := by
  unfold dpu_loop
  by_cases hr : s.max_page ≤ r.ptr >>> PAGE_SHIFT
  · rw [if_pos hr]
  · rw [if_neg hr]
    have hreq : do_update_request s r.ptr r.val = (1, s) := by
      unfold do_update_request
      rw [if_neg (by rw [h]; decide), if_neg (by rw [h]; decide),
          if_neg (by rw [h]; decide)]
    rw [hreq]
    simp

/-- Claim C10, witness: the request with pointer 7 (kind field `11`)
kills the domain from the base state, leaving it unchanged. -/
theorem C10_witness : dpu_loop baseState [c10Req] = .killed baseState :=
  C10_invalid_kind_kills_without_mutation baseState c10Req [] (by decide)
